import Mathlib

/-!
Shallow embedding of the posture/eye-strain classification engine of
`backend/posture_detector.py` (class `PostureDetector`) and of the status
payloads of `backend/app.py`, together with theorems settling the frozen
claims about the natural-language specification.

Machine floats are modelled by `ℚ`, timestamps by `ℚ` (seconds), Python
`deque(maxlen=m)` by a list with a bounded-append operation, and the
per-frame perception input by the pair (face-size ratio if a face was
detected, averaged eye-aspect-ratio if landmarks were available) — the
geometry that produces those two numbers (`calculate_face_size`,
`eye_aspect_ratio`) is outside every claim and is treated as the input.
-/

set_option maxRecDepth 10000

attribute [local semireducible] Rat.add Rat.sub Rat.mul Rat.inv Rat.ofScientific

/-- Posture label, the tri-state status string of `detect_posture`
(`'good'`, `'warning'`, `'bad'`). -/
inductive PostureLabel where
  | good
  | warning
  | bad
deriving Repr, DecidableEq, BEq

/-- Append on a Python `deque(maxlen=m)`: the new element goes to the right
and elements are dropped from the left so that at most `m` remain. -/
def dequeAppend (maxlen : Nat) (xs : List α) (x : α) : List α :=
  let ys := xs ++ [x]
  if maxlen < ys.length then ys.drop (ys.length - maxlen) else ys

/-- The mutable state of a `PostureDetector` instance: every `self.*`
attribute of `__init__` that the per-frame pipeline reads or writes
(visualization-only fields — colors, landmark index tables, debug flags —
carry no engine state and are omitted). -/
structure PostureDetector where
  distance_threshold : ℚ
  smoothing_frames : Nat
  face_size_history : List ℚ
  bad_posture_counter : Nat
  no_face_duration : ℚ
  last_face_time : ℚ
  frame_history : List PostureLabel
  frame_timestamps : List ℚ
  no_face_threshold : ℚ
  warning_avg_threshold : ℚ
  bad_avg_threshold : ℚ
  blink_count : Nat
  frame_counter : Nat
  ear_threshold : ℚ
  consec_frames : Nat
  blink_timestamps : List ℚ
  blink_rate_check_interval : ℚ
  last_blink_rate_check : ℚ
  absolute_min_blinks_per_minute : Nat
  min_blinks_per_minute : Nat
  low_blink_rate_alert_triggered : Bool
deriving Repr, DecidableEq

/-- `PostureDetector.__init__(distance_threshold, smoothing_frames)`,
constructed at wall-clock instant `now` (the value `time.time()` returns
during construction). -/
def PostureDetector.init (distance_threshold : ℚ) (smoothing_frames : Nat)
    (now : ℚ) : PostureDetector where
  distance_threshold := distance_threshold
  smoothing_frames := smoothing_frames
  face_size_history := []
  bad_posture_counter := 0
  no_face_duration := 0
  last_face_time := now
  frame_history := []
  frame_timestamps := []
  no_face_threshold := 30
  warning_avg_threshold := 6/10
  bad_avg_threshold := 5/10
  blink_count := 0
  frame_counter := 0
  ear_threshold := 3/10
  consec_frames := 4
  blink_timestamps := []
  blink_rate_check_interval := 60
  last_blink_rate_check := now
  absolute_min_blinks_per_minute := 7
  min_blinks_per_minute := 11
  low_blink_rate_alert_triggered := false

/-- `get_smoothed_face_size`: `None` on an empty history, otherwise the
arithmetic mean of the history. -/
def PostureDetector.get_smoothed_face_size (s : PostureDetector) : Option ℚ :=
  if s.face_size_history.isEmpty then none
  else some (s.face_size_history.sum / s.face_size_history.length)

/-- `update_blink_count(ear)` at instant `now` (the `time.time()` recorded
for a confirmed blink): returns (`blink_detected`, updated state). -/
def PostureDetector.update_blink_count (s : PostureDetector) (now ear : ℚ) :
    Bool × PostureDetector :=
  if ear < s.ear_threshold then
    (false, { s with frame_counter := s.frame_counter + 1 })
  else if s.consec_frames ≤ s.frame_counter then
    (true, { s with blink_count := s.blink_count + 1,
                    blink_timestamps := s.blink_timestamps ++ [now],
                    frame_counter := 0 })
  else
    (false, { s with frame_counter := 0 })

/-- `detect_blinks`: when Face Mesh yields no landmarks the method returns
early with `False` and touches no counter; otherwise the averaged EAR
(`earOpt = some ear`) is fed to `update_blink_count`. -/
def PostureDetector.detect_blinks (s : PostureDetector) (now : ℚ)
    (earOpt : Option ℚ) : Bool × PostureDetector :=
  match earOpt with
  | none => (false, s)
  | some ear => s.update_blink_count now ear

/-- The posture-status ladder of `detect_posture` (lines 265–272):
`None → 'good'`; `> threshold → 'bad'`; `> 0.75·threshold → 'warning'`;
otherwise `'good'`. -/
def classifyStatus (distance_threshold : ℚ) (smoothed : Option ℚ) :
    PostureLabel :=
  match smoothed with
  | none => .good
  | some v =>
    if distance_threshold < v then .bad
    else if distance_threshold * (75/100) < v then .warning
    else .good

/-- The alert dictionary initialized at the top of `detect_posture`
(lines 245–251): five boolean fields, all `False`. -/
structure Alerts where
  no_face_alert : Bool := false
  warning_alert : Bool := false
  bad_alert : Bool := false
  low_blink_rate_alert : Bool := false
  serious_eye_strain : Bool := false
deriving Repr, DecidableEq

/-- Everything `detect_posture` returns, plus the post-frame state. -/
structure DetectResult where
  posture_status : PostureLabel
  face_size : Option ℚ
  is_face_detected : Bool
  alerts : Alerts
  state : PostureDetector
deriving Repr, DecidableEq

/-- Face branch of `detect_posture` (lines 253–276): on a detection, reset
the presence timer, push the face size into the smoothing history and
classify the smoothed value; on no detection, update `no_face_duration`
and label the frame `'good'`. Returns (state, status, face_size,
is_face_detected). -/
def faceStep (s : PostureDetector) (now : ℚ) (face : Option ℚ) :
    PostureDetector × PostureLabel × Option ℚ × Bool :=
  match face with
  | some fs =>
    let s := { s with
      last_face_time := now
      no_face_duration := 0
      face_size_history := dequeAppend s.smoothing_frames s.face_size_history fs }
    (s, classifyStatus s.distance_threshold s.get_smoothed_face_size, some fs, true)
  | none =>
    ({ s with no_face_duration := now - s.last_face_time }, .good, none, false)

/-- Whether a frame label counts toward `bad_count` (line 283). -/
def isBad (l : PostureLabel) : Bool := l == .bad

/-- Whether a frame label counts toward `warning_or_bad_count` (line 284). -/
def isWarnOrBad (l : PostureLabel) : Bool := l == .bad || l == .warning

/-- Fraction computation and behavior-window alerts of `detect_posture`
(lines 283–297): with a nonempty window, `bad_alert` iff
`bad_fraction >= bad_avg_threshold`, and `warning_alert` iff not
`bad_alert` and `warning_or_bad_fraction >= warning_avg_threshold`. -/
def windowAlerts (s : PostureDetector) (alerts : Alerts) : Alerts :=
  let bad_count := (s.frame_history.filter isBad).length
  let warning_or_bad_count := (s.frame_history.filter isWarnOrBad).length
  let total_frames := s.frame_history.length
  if 0 < total_frames then
    let bad_fraction : ℚ := bad_count / total_frames
    let warning_or_bad_fraction : ℚ := warning_or_bad_count / total_frames
    let alerts :=
      if s.bad_avg_threshold ≤ bad_fraction then
        { alerts with bad_alert := true }
      else alerts
    if alerts.bad_alert = false ∧ s.warning_avg_threshold ≤ warning_or_bad_fraction then
      { alerts with warning_alert := true }
    else alerts
  else alerts

/-- No-face alert of `detect_posture` (lines 299–301): fires when the
accumulated `no_face_duration` has reached `no_face_threshold`. -/
def noFaceAlertStep (s : PostureDetector) (alerts : Alerts) : Alerts :=
  if s.no_face_threshold ≤ s.no_face_duration then
    { alerts with no_face_alert := true }
  else alerts

/-- Blink-rate check of `detect_posture` (lines 304–326): runs only when at
least `blink_rate_check_interval` has elapsed since the last check; evicts
timestamps below `now - interval` from the front of the queue, counts the
rest, applies the two-tier thresholds and stamps `last_blink_rate_check`. -/
def blinkRateStep (s : PostureDetector) (now : ℚ) (alerts : Alerts) :
    Alerts × PostureDetector :=
  if s.blink_rate_check_interval ≤ now - s.last_blink_rate_check then
    let cutoff := now - s.blink_rate_check_interval
    let bt := s.blink_timestamps.dropWhile (fun t => t < cutoff)
    let blinks_per_minute := bt.length
    let checked :=
      if blinks_per_minute < s.absolute_min_blinks_per_minute then
        ({ alerts with serious_eye_strain := true }, true)
      else if blinks_per_minute < s.min_blinks_per_minute then
        ({ alerts with low_blink_rate_alert := true }, true)
      else (alerts, false)
    (checked.1, { s with
      blink_timestamps := bt
      low_blink_rate_alert_triggered := checked.2
      last_blink_rate_check := now })
  else (alerts, s)

/-- `detect_posture(frame)` at wall-clock instant `now`, with the
perception results for the frame: `face` is the face-size ratio of the
first detection (or `none`), `earOpt` the averaged EAR from the Face Mesh
landmarks (or `none`). Mirrors the method body in source order: blink
detection, face branch, rolling-window append, fraction alerts, no-face
alert, periodic blink-rate check. -/
def PostureDetector.detect_posture (s : PostureDetector) (now : ℚ)
    (face : Option ℚ) (earOpt : Option ℚ) : DetectResult :=
  let s := (s.detect_blinks now earOpt).2
  let fr := faceStep s now face
  let s := fr.1
  let posture_status := fr.2.1
  let face_size := fr.2.2.1
  let is_face_detected := fr.2.2.2
  let s := { s with
    frame_history := dequeAppend 300 s.frame_history posture_status
    frame_timestamps := dequeAppend 300 s.frame_timestamps now }
  let alerts : Alerts := {}
  let alerts := windowAlerts s alerts
  let alerts := noFaceAlertStep s alerts
  let br := blinkRateStep s now alerts
  ⟨posture_status, face_size, is_face_detected, br.1, br.2⟩

/-- One perception input per frame: (timestamp, face-size ratio if
detected, averaged EAR if landmarks were available). -/
abbrev FrameInput := ℚ × Option ℚ × Option ℚ

/-- Drive the detector over a sequence of frames, keeping only the state
(as `run_detection_loop` in `app.py` does frame after frame). -/
def runFrames (s : PostureDetector) (frames : List FrameInput) :
    PostureDetector :=
  frames.foldl (fun st f => (st.detect_posture f.1 f.2.1 f.2.2).state) s

/-- Modelled from the spec: `reset()` (spec §6) is absent from the sources
under `backend/`; the spec describes it as reinitializing all
window/timer/counter state to empty, as if freshly constructed, while
preserving the configured thresholds (the constructor arguments
`distance_threshold` and `smoothing_frames`). `now` is the construction
instant of the re-initialized state. -/
def PostureDetector.reset (s : PostureDetector) (now : ℚ) : PostureDetector :=
  PostureDetector.init s.distance_threshold s.smoothing_frames now

/-- The initial `current_status['alerts']` dictionary of `app.py`
(lines 33–38), published before any frame has been processed, as an
association list in source order. -/
def app_initial_alerts : List (String × Bool) :=
  [("bad_alert", false), ("warning_alert", false), ("no_face_alert", false),
   ("low_blink_rate_alert", false)]

/-- The alert dictionary a processed frame publishes (the `alerts` dict of
`detect_posture`, lines 245–251, forwarded verbatim by
`run_detection_loop`), as an association list in source order. -/
def alertsPayload (a : Alerts) : List (String × Bool) :=
  [("no_face_alert", a.no_face_alert), ("warning_alert", a.warning_alert),
   ("bad_alert", a.bad_alert), ("low_blink_rate_alert", a.low_blink_rate_alert),
   ("serious_eye_strain", a.serious_eye_strain)]

/-- The engine state right after the rolling-window append of
`detect_posture` (line 279–280), i.e. the state the alert computations of
the same call read. Definitionally a stage of `detect_posture`. -/
def postWindowState (s : PostureDetector) (now : ℚ) (face earOpt : Option ℚ) :
    PostureDetector :=
  let s := (s.detect_blinks now earOpt).2
  let fr := faceStep s now face
  let s := fr.1
  { s with
    frame_history := dequeAppend 300 s.frame_history fr.2.1
    frame_timestamps := dequeAppend 300 s.frame_timestamps now }


/-- Feed a sequence of per-frame EAR samples (all stamped `now`) through
`update_blink_count`, keeping the state — the loop a run of
landmark-bearing frames performs on the blink counter. -/
def feedEars (s : PostureDetector) (now : ℚ) (ears : List ℚ) : PostureDetector :=
  ears.foldl (fun st e => (st.update_blink_count now e).2) s

/-- A detector as `app.py` builds it (`PostureDetector(distance_threshold=0.18)`,
default `smoothing_frames=10`), constructed at instant 0. -/
def freshDetector : PostureDetector := PostureDetector.init (18/100) 10 0

/-- First probe frame for the window-eviction check: at `t = 0`, a face so
close (ratio 0.5) that the frame is labelled `'bad'`. -/
def c1FirstFrame : DetectResult := freshDetector.detect_posture 0 (some (1/2)) none

/-- Second probe frame for the window-eviction check: at `t = 100`
(90 seconds past the 10-second window), no face detected. -/
def c1SecondFrame : DetectResult := c1FirstFrame.state.detect_posture 100 none none

/-- The detector after ten consecutive face frames of constant size ratio
exactly `distance_threshold = 0.18`: the smoothing buffer is full of the
threshold value. -/
def constThresholdRun : PostureDetector :=
  runFrames freshDetector (List.replicate 10 ((0 : ℚ), some ((18 : ℚ)/100), (none : Option ℚ)))

/-- A frame processed at `t = 60`: the first blink-rate check fires with an
empty blink queue. -/
def c3CheckFrame : DetectResult := freshDetector.detect_posture 60 none none

/-- The frame right after the check, at `t = 61`: the interval has not
elapsed again. -/
def c3NextFrame : DetectResult := c3CheckFrame.state.detect_posture 61 none none

/-- A fresh detector that has recorded five blinks inside the trailing
60-second window. -/
def fiveBlinkDetector : PostureDetector :=
  { freshDetector with blink_timestamps := [10, 20, 30, 40, 50] }

/-! ### Step lemmas

Plumbing facts about which fields each stage of `detect_posture` leaves
untouched, and characterizations of the alert computations. -/

theorem detect_blinks_preserve (s : PostureDetector) (now : ℚ) (o : Option ℚ) :
    ((s.detect_blinks now o).2).distance_threshold = s.distance_threshold ∧
    ((s.detect_blinks now o).2).smoothing_frames = s.smoothing_frames ∧
    ((s.detect_blinks now o).2).face_size_history = s.face_size_history ∧
    ((s.detect_blinks now o).2).no_face_duration = s.no_face_duration ∧
    ((s.detect_blinks now o).2).last_face_time = s.last_face_time ∧
    ((s.detect_blinks now o).2).frame_history = s.frame_history ∧
    ((s.detect_blinks now o).2).frame_timestamps = s.frame_timestamps ∧
    ((s.detect_blinks now o).2).no_face_threshold = s.no_face_threshold ∧
    ((s.detect_blinks now o).2).warning_avg_threshold = s.warning_avg_threshold ∧
    ((s.detect_blinks now o).2).bad_avg_threshold = s.bad_avg_threshold ∧
    ((s.detect_blinks now o).2).blink_rate_check_interval = s.blink_rate_check_interval ∧
    ((s.detect_blinks now o).2).last_blink_rate_check = s.last_blink_rate_check ∧
    ((s.detect_blinks now o).2).absolute_min_blinks_per_minute = s.absolute_min_blinks_per_minute ∧
    ((s.detect_blinks now o).2).min_blinks_per_minute = s.min_blinks_per_minute ∧
    ((s.detect_blinks now o).2).low_blink_rate_alert_triggered = s.low_blink_rate_alert_triggered := by
  cases o with
  | none =>
    exact ⟨rfl, rfl, rfl, rfl, rfl, rfl, rfl, rfl, rfl, rfl, rfl, rfl, rfl, rfl, rfl⟩
  | some e =>
    simp only [PostureDetector.detect_blinks, PostureDetector.update_blink_count]
    split_ifs <;>
      exact ⟨rfl, rfl, rfl, rfl, rfl, rfl, rfl, rfl, rfl, rfl, rfl, rfl, rfl, rfl, rfl⟩

theorem faceStep_preserve (s : PostureDetector) (now : ℚ) (face : Option ℚ) :
    ((faceStep s now face).1).distance_threshold = s.distance_threshold ∧
    ((faceStep s now face).1).smoothing_frames = s.smoothing_frames ∧
    ((faceStep s now face).1).frame_history = s.frame_history ∧
    ((faceStep s now face).1).frame_timestamps = s.frame_timestamps ∧
    ((faceStep s now face).1).no_face_threshold = s.no_face_threshold ∧
    ((faceStep s now face).1).warning_avg_threshold = s.warning_avg_threshold ∧
    ((faceStep s now face).1).bad_avg_threshold = s.bad_avg_threshold ∧
    ((faceStep s now face).1).blink_count = s.blink_count ∧
    ((faceStep s now face).1).frame_counter = s.frame_counter ∧
    ((faceStep s now face).1).blink_timestamps = s.blink_timestamps ∧
    ((faceStep s now face).1).blink_rate_check_interval = s.blink_rate_check_interval ∧
    ((faceStep s now face).1).last_blink_rate_check = s.last_blink_rate_check ∧
    ((faceStep s now face).1).absolute_min_blinks_per_minute = s.absolute_min_blinks_per_minute ∧
    ((faceStep s now face).1).min_blinks_per_minute = s.min_blinks_per_minute ∧
    ((faceStep s now face).1).low_blink_rate_alert_triggered = s.low_blink_rate_alert_triggered := by
  cases face <;>
    exact ⟨rfl, rfl, rfl, rfl, rfl, rfl, rfl, rfl, rfl, rfl, rfl, rfl, rfl, rfl, rfl⟩

theorem windowAlerts_preserve (s : PostureDetector) (a : Alerts) :
    (windowAlerts s a).no_face_alert = a.no_face_alert ∧
    (windowAlerts s a).low_blink_rate_alert = a.low_blink_rate_alert ∧
    (windowAlerts s a).serious_eye_strain = a.serious_eye_strain := by
  unfold windowAlerts
  dsimp only
  split_ifs <;> exact ⟨rfl, rfl, rfl⟩

theorem noFaceAlertStep_preserve (s : PostureDetector) (a : Alerts) :
    (noFaceAlertStep s a).warning_alert = a.warning_alert ∧
    (noFaceAlertStep s a).bad_alert = a.bad_alert ∧
    (noFaceAlertStep s a).low_blink_rate_alert = a.low_blink_rate_alert ∧
    (noFaceAlertStep s a).serious_eye_strain = a.serious_eye_strain := by
  unfold noFaceAlertStep
  split_ifs <;> exact ⟨rfl, rfl, rfl, rfl⟩

theorem noFaceAlertStep_char (s : PostureDetector) (a : Alerts) :
    (noFaceAlertStep s a).no_face_alert =
      (a.no_face_alert || decide (s.no_face_threshold ≤ s.no_face_duration)) := by
  unfold noFaceAlertStep
  split_ifs with h <;> simp [h]

theorem blinkRateStep_preserve (s : PostureDetector) (now : ℚ) (a : Alerts) :
    (blinkRateStep s now a).1.no_face_alert = a.no_face_alert ∧
    (blinkRateStep s now a).1.warning_alert = a.warning_alert ∧
    (blinkRateStep s now a).1.bad_alert = a.bad_alert ∧
    (blinkRateStep s now a).2.distance_threshold = s.distance_threshold ∧
    (blinkRateStep s now a).2.smoothing_frames = s.smoothing_frames ∧
    (blinkRateStep s now a).2.face_size_history = s.face_size_history ∧
    (blinkRateStep s now a).2.no_face_duration = s.no_face_duration ∧
    (blinkRateStep s now a).2.last_face_time = s.last_face_time ∧
    (blinkRateStep s now a).2.frame_history = s.frame_history ∧
    (blinkRateStep s now a).2.frame_timestamps = s.frame_timestamps ∧
    (blinkRateStep s now a).2.blink_count = s.blink_count ∧
    (blinkRateStep s now a).2.frame_counter = s.frame_counter := by
  unfold blinkRateStep
  dsimp only
  split_ifs <;>
    exact ⟨rfl, rfl, rfl, rfl, rfl, rfl, rfl, rfl, rfl, rfl, rfl, rfl⟩

theorem blinkRateStep_not_fired (s : PostureDetector) (now : ℚ) (a : Alerts)
    (h : ¬ s.blink_rate_check_interval ≤ now - s.last_blink_rate_check) :
    blinkRateStep s now a = (a, s) := by
  unfold blinkRateStep
  simp [h]

theorem detect_posture_decomp (s : PostureDetector) (now : ℚ)
    (face earOpt : Option ℚ) :
    s.detect_posture now face earOpt =
      ⟨(faceStep (s.detect_blinks now earOpt).2 now face).2.1,
       (faceStep (s.detect_blinks now earOpt).2 now face).2.2.1,
       (faceStep (s.detect_blinks now earOpt).2 now face).2.2.2,
       (blinkRateStep (postWindowState s now face earOpt) now
         (noFaceAlertStep (postWindowState s now face earOpt)
           (windowAlerts (postWindowState s now face earOpt) {}))).1,
       (blinkRateStep (postWindowState s now face earOpt) now
         (noFaceAlertStep (postWindowState s now face earOpt)
           (windowAlerts (postWindowState s now face earOpt) {}))).2⟩ := rfl

theorem postWindowState_thresholds (s : PostureDetector) (now : ℚ)
    (face earOpt : Option ℚ) :
    (postWindowState s now face earOpt).distance_threshold = s.distance_threshold ∧
    (postWindowState s now face earOpt).smoothing_frames = s.smoothing_frames ∧
    (postWindowState s now face earOpt).no_face_threshold = s.no_face_threshold ∧
    (postWindowState s now face earOpt).warning_avg_threshold = s.warning_avg_threshold ∧
    (postWindowState s now face earOpt).bad_avg_threshold = s.bad_avg_threshold ∧
    (postWindowState s now face earOpt).blink_rate_check_interval = s.blink_rate_check_interval ∧
    (postWindowState s now face earOpt).absolute_min_blinks_per_minute = s.absolute_min_blinks_per_minute ∧
    (postWindowState s now face earOpt).min_blinks_per_minute = s.min_blinks_per_minute := by
  obtain ⟨hd1, hs1, -, -, -, -, -, hn1, hw1, hb1, hi1, -, ha1, hm1, -⟩ :=
    detect_blinks_preserve s now earOpt
  obtain ⟨hd2, hs2, -, -, hn2, hw2, hb2, -, -, -, hi2, -, ha2, hm2, -⟩ :=
    faceStep_preserve ((s.detect_blinks now earOpt).2) now face
  exact ⟨hd2.trans hd1, hs2.trans hs1, hn2.trans hn1, hw2.trans hw1,
    hb2.trans hb1, hi2.trans hi1, ha2.trans ha1, hm2.trans hm1⟩

theorem windowAlerts_bad_char (s : PostureDetector) :
    ((windowAlerts s {}).bad_alert = true ↔
      0 < s.frame_history.length ∧
        s.bad_avg_threshold ≤
          ((s.frame_history.filter isBad).length : ℚ) / s.frame_history.length) := by
  unfold windowAlerts
  dsimp only
  split_ifs <;> simp_all

theorem windowAlerts_warning_char (s : PostureDetector) :
    ((windowAlerts s {}).warning_alert = true ↔
      0 < s.frame_history.length ∧ (windowAlerts s {}).bad_alert = false ∧
        s.warning_avg_threshold ≤
          ((s.frame_history.filter isWarnOrBad).length : ℚ) / s.frame_history.length) := by
  unfold windowAlerts
  dsimp only
  split_ifs <;> simp_all

theorem postWindowState_blink_fields (s : PostureDetector) (now : ℚ)
    (face earOpt : Option ℚ) :
    (postWindowState s now face earOpt).blink_timestamps =
      ((s.detect_blinks now earOpt).2).blink_timestamps ∧
    (postWindowState s now face earOpt).blink_count =
      ((s.detect_blinks now earOpt).2).blink_count ∧
    (postWindowState s now face earOpt).frame_counter =
      ((s.detect_blinks now earOpt).2).frame_counter ∧
    (postWindowState s now face earOpt).last_blink_rate_check = s.last_blink_rate_check ∧
    (postWindowState s now face earOpt).low_blink_rate_alert_triggered =
      s.low_blink_rate_alert_triggered := by
  obtain ⟨-, -, -, -, -, -, -, -, -, -, -, hl1, -, -, ht1⟩ :=
    detect_blinks_preserve s now earOpt
  obtain ⟨-, -, -, -, -, -, -, hbc2, hfc2, hbt2, -, hl2, -, -, ht2⟩ :=
    faceStep_preserve ((s.detect_blinks now earOpt).2) now face
  exact ⟨hbt2, hbc2, hfc2, hl2.trans hl1, ht2.trans ht1⟩

theorem postWindowState_presence (s : PostureDetector) (now : ℚ)
    (earOpt : Option ℚ) :
    (∀ v : ℚ, (postWindowState s now (some v) earOpt).no_face_duration = 0 ∧
       (postWindowState s now (some v) earOpt).last_face_time = now) ∧
    (postWindowState s now none earOpt).no_face_duration = now - s.last_face_time ∧
    (postWindowState s now none earOpt).last_face_time = s.last_face_time := by
  obtain ⟨-, -, -, -, hlf, -, -, -, -, -, -, -, -, -, -⟩ :=
    detect_blinks_preserve s now earOpt
  refine ⟨fun v => ⟨rfl, rfl⟩, ?_, ?_⟩
  · show now - ((s.detect_blinks now earOpt).2).last_face_time = now - s.last_face_time
    rw [hlf]
  · exact hlf

theorem blinkRateStep_fired (s : PostureDetector) (now : ℚ) (a : Alerts)
    (h : s.blink_rate_check_interval ≤ now - s.last_blink_rate_check) :
    ((blinkRateStep s now a).1.serious_eye_strain =
      (a.serious_eye_strain ||
        decide ((s.blink_timestamps.dropWhile
          (fun t => t < now - s.blink_rate_check_interval)).length <
            s.absolute_min_blinks_per_minute))) ∧
    ((blinkRateStep s now a).1.low_blink_rate_alert =
      (a.low_blink_rate_alert ||
        (!decide ((s.blink_timestamps.dropWhile
            (fun t => t < now - s.blink_rate_check_interval)).length <
              s.absolute_min_blinks_per_minute) &&
         decide ((s.blink_timestamps.dropWhile
            (fun t => t < now - s.blink_rate_check_interval)).length <
              s.min_blinks_per_minute)))) ∧
    ((blinkRateStep s now a).2.low_blink_rate_alert_triggered =
      (decide ((s.blink_timestamps.dropWhile
          (fun t => t < now - s.blink_rate_check_interval)).length <
            s.absolute_min_blinks_per_minute) ||
       decide ((s.blink_timestamps.dropWhile
          (fun t => t < now - s.blink_rate_check_interval)).length <
            s.min_blinks_per_minute))) ∧
    (blinkRateStep s now a).2.last_blink_rate_check = now := by
  unfold blinkRateStep
  dsimp only
  rw [if_pos h]
  dsimp only
  split_ifs <;> simp_all

theorem dequeAppend_replicate (m : Nat) (v : ℚ) :
    dequeAppend m (List.replicate m v) v = List.replicate m v := by
  unfold dequeAppend
  dsimp only
  rw [← List.replicate_succ' m v, List.length_replicate,
    if_pos (Nat.lt_succ_self m), Nat.add_sub_cancel_left, List.replicate_succ]
  rfl

theorem smoothed_of_replicate (s : PostureDetector) (m : Nat) (v : ℚ)
    (hm : 0 < m) (hh : s.face_size_history = List.replicate m v) :
    s.get_smoothed_face_size = some v := by
  unfold PostureDetector.get_smoothed_face_size
  rw [hh]
  rw [if_neg (by simp [List.isEmpty_eq_false, List.replicate_eq_nil_iff, hm.ne'])]
  congr 1
  rw [List.sum_replicate, List.length_replicate, nsmul_eq_mul]
  exact mul_div_cancel_left₀ v (Nat.cast_ne_zero.mpr hm.ne')

theorem feedEars_closed_run (now c : ℚ) (n : Nat) :
    ∀ s : PostureDetector, c < s.ear_threshold →
      feedEars s now (List.replicate n c) =
        { s with frame_counter := s.frame_counter + n } := by
  induction n with
  | zero => intro s _; simp [feedEars]
  | succ n ih =>
    intro s hc
    rw [List.replicate_succ]
    show feedEars ((s.update_blink_count now c).2) now (List.replicate n c) = _
    rw [PostureDetector.update_blink_count, if_pos hc]
    dsimp only
    rw [ih { s with frame_counter := s.frame_counter + 1 } hc]
    simp [Nat.add_assoc, Nat.add_comm 1 n]

theorem detect_posture_config (s : PostureDetector) (now : ℚ)
    (face earOpt : Option ℚ) :
    (s.detect_posture now face earOpt).state.distance_threshold = s.distance_threshold ∧
    (s.detect_posture now face earOpt).state.smoothing_frames = s.smoothing_frames := by
  rw [detect_posture_decomp]
  obtain ⟨-, -, -, hd, hs, -, -, -, -, -, -, -⟩ :=
    blinkRateStep_preserve (postWindowState s now face earOpt) now
      (noFaceAlertStep (postWindowState s now face earOpt)
        (windowAlerts (postWindowState s now face earOpt) {}))
  obtain ⟨hd2, hs2, -, -, -, -, -, -⟩ := postWindowState_thresholds s now face earOpt
  exact ⟨hd.trans hd2, hs.trans hs2⟩

theorem runFrames_config (frames : List FrameInput) :
    ∀ s : PostureDetector,
      (runFrames s frames).distance_threshold = s.distance_threshold ∧
      (runFrames s frames).smoothing_frames = s.smoothing_frames := by
  induction frames with
  | nil => intro s; exact ⟨rfl, rfl⟩
  | cons f fs ih =>
    intro s
    show (runFrames ((s.detect_posture f.1 f.2.1 f.2.2).state) fs).distance_threshold = _ ∧
      (runFrames ((s.detect_posture f.1 f.2.1 f.2.2).state) fs).smoothing_frames = _
    obtain ⟨h1, h2⟩ := ih ((s.detect_posture f.1 f.2.1 f.2.2).state)
    obtain ⟨h3, h4⟩ := detect_posture_config s f.1 f.2.1 f.2.2
    exact ⟨h1.trans h3, h2.trans h4⟩

/-! ### Claim theorems -/

/-- C4: on every processed frame, the behavior-window alerts follow the
fraction policy over the window as it stands at evaluation time:
`bad_alert` holds iff the window is nonempty and the fraction of `bad`
labels is at least `bad_avg_threshold` (0.5); `warning_alert` holds iff
the window is nonempty, `bad_alert` is off, and the warning-or-bad
fraction is at least `warning_avg_threshold` (0.6); in particular the two
alerts are never both raised, and on an empty window both are off. -/
theorem behavior_window_alert_policy (s : PostureDetector) (now : ℚ)
    (face earOpt : Option ℚ) :
    ((s.detect_posture now face earOpt).alerts.bad_alert = true ↔
      0 < (s.detect_posture now face earOpt).state.frame_history.length ∧
        s.bad_avg_threshold ≤
          (((s.detect_posture now face earOpt).state.frame_history.filter isBad).length : ℚ) /
            (s.detect_posture now face earOpt).state.frame_history.length) ∧
    ((s.detect_posture now face earOpt).alerts.warning_alert = true ↔
      0 < (s.detect_posture now face earOpt).state.frame_history.length ∧
        (s.detect_posture now face earOpt).alerts.bad_alert = false ∧
        s.warning_avg_threshold ≤
          (((s.detect_posture now face earOpt).state.frame_history.filter isWarnOrBad).length : ℚ) /
            (s.detect_posture now face earOpt).state.frame_history.length) ∧
    ¬((s.detect_posture now face earOpt).alerts.bad_alert = true ∧
      (s.detect_posture now face earOpt).alerts.warning_alert = true) := by
  obtain ⟨-, -, -, hw, hb, -, -, -⟩ := postWindowState_thresholds s now face earOpt
  obtain ⟨-, hwarn, hbad, -, -, -, -, -, hfh, -, -, -⟩ :=
    blinkRateStep_preserve (postWindowState s now face earOpt) now
      (noFaceAlertStep (postWindowState s now face earOpt)
        (windowAlerts (postWindowState s now face earOpt) {}))
  obtain ⟨hwarn2, hbad2, -, -⟩ :=
    noFaceAlertStep_preserve (postWindowState s now face earOpt)
      (windowAlerts (postWindowState s now face earOpt) {})
  rw [detect_posture_decomp]
  dsimp only
  rw [hbad, hbad2, hwarn, hwarn2, hfh, ← hb, ← hw]
  refine ⟨windowAlerts_bad_char _, windowAlerts_warning_char _, ?_⟩
  rintro ⟨h1, h2⟩
  rw [windowAlerts_warning_char] at h2
  rw [h2.2.1] at h1
  exact absurd h1 (by simp)

/-- C3 counterexample: a blink-rate check at `t = 60` on a fresh detector
(no blinks recorded) raises `serious_eye_strain`, yet the very next frame
at `t = 61` — before the next check — returns `serious_eye_strain = false`
instead of the cached result of the most recent check, refuting the claim
that intermediate frames keep the last check's alert values. -/
theorem blink_alerts_not_cached_between_checks :
    c3CheckFrame.alerts.serious_eye_strain = true ∧
    c3NextFrame.alerts.serious_eye_strain = false ∧
    c3NextFrame.state.last_blink_rate_check = 60 := by decide

/-- C3 (amended): the blink-rate check indeed runs at most once per
`rate_check_interval` — on a frame where the interval has not elapsed
since the last check, `last_blink_rate_check` and the internal triggered
flag are untouched — but on such frames the returned `low_blink_rate_alert`
and `serious_eye_strain` are simply `false` (the freshly initialized alert
dict), not the cached result of the most recent check. -/
theorem blink_rate_check_interval_gating (s : PostureDetector) (now : ℚ)
    (face earOpt : Option ℚ)
    (h : now - s.last_blink_rate_check < s.blink_rate_check_interval) :
    (s.detect_posture now face earOpt).alerts.low_blink_rate_alert = false ∧
    (s.detect_posture now face earOpt).alerts.serious_eye_strain = false ∧
    (s.detect_posture now face earOpt).state.last_blink_rate_check =
      s.last_blink_rate_check ∧
    (s.detect_posture now face earOpt).state.low_blink_rate_alert_triggered =
      s.low_blink_rate_alert_triggered := by
  obtain ⟨-, -, -, -, -, hi, -, -⟩ := postWindowState_thresholds s now face earOpt
  obtain ⟨-, -, -, hl, ht⟩ := postWindowState_blink_fields s now face earOpt
  have hnot : ¬ (postWindowState s now face earOpt).blink_rate_check_interval ≤
      now - (postWindowState s now face earOpt).last_blink_rate_check := by
    rw [hi, hl]
    exact not_le.mpr h
  obtain ⟨-, hlow1, hser1⟩ :=
    windowAlerts_preserve (postWindowState s now face earOpt) {}
  obtain ⟨-, -, hlow2, hser2⟩ :=
    noFaceAlertStep_preserve (postWindowState s now face earOpt)
      (windowAlerts (postWindowState s now face earOpt) {})
  rw [detect_posture_decomp]
  dsimp only
  rw [blinkRateStep_not_fired _ _ _ hnot]
  exact ⟨hlow2.trans hlow1, hser2.trans hser1, hl, ht⟩

/-- C3 witness: one frame after the fresh construction instant (interval
not yet elapsed) leaves the check timestamp untouched and reports both
blink alerts false. -/
theorem blink_rate_check_interval_gating_witness :
    (freshDetector.detect_posture 1 none none).alerts.low_blink_rate_alert = false ∧
    (freshDetector.detect_posture 1 none none).alerts.serious_eye_strain = false ∧
    (freshDetector.detect_posture 1 none none).state.last_blink_rate_check =
      freshDetector.last_blink_rate_check ∧
    (freshDetector.detect_posture 1 none none).state.low_blink_rate_alert_triggered =
      freshDetector.low_blink_rate_alert_triggered :=
  blink_rate_check_interval_gating freshDetector 1 none none (by decide)

/-- C5: on a face-detected frame the no-face duration resets to 0 and the
no-face alert is off immediately (no hysteresis); on a no-detection frame
the duration equals `now` minus the last detection time, and the alert is
raised exactly when that duration has reached `no_face_threshold` — so it
fires when the clock has advanced by exactly the threshold and not one
tick earlier. -/
theorem presence_timer_policy (s : PostureDetector) (now : ℚ)
    (earOpt : Option ℚ) (hpos : 0 < s.no_face_threshold) :
    (∀ v : ℚ,
      (s.detect_posture now (some v) earOpt).state.no_face_duration = 0 ∧
      (s.detect_posture now (some v) earOpt).state.last_face_time = now ∧
      (s.detect_posture now (some v) earOpt).alerts.no_face_alert = false) ∧
    (s.detect_posture now none earOpt).state.no_face_duration =
      now - s.last_face_time ∧
    ((s.detect_posture now none earOpt).alerts.no_face_alert = true ↔
      s.no_face_threshold ≤ now - s.last_face_time) := by
  obtain ⟨hsome, hnone_dur, -⟩ := postWindowState_presence s now earOpt
  refine ⟨fun v => ?_, ?_, ?_⟩
  · obtain ⟨hdur, hlast⟩ := hsome v
    obtain ⟨-, -, hthr, -, -, -, -, -⟩ := postWindowState_thresholds s now (some v) earOpt
    obtain ⟨hno, -, -, -, -, -, hdur2, hlast2, -, -, -, -⟩ :=
      blinkRateStep_preserve (postWindowState s now (some v) earOpt) now
        (noFaceAlertStep (postWindowState s now (some v) earOpt)
          (windowAlerts (postWindowState s now (some v) earOpt) {}))
    obtain ⟨hno2, -, -⟩ :=
      windowAlerts_preserve (postWindowState s now (some v) earOpt) {}
    rw [detect_posture_decomp]
    dsimp only
    refine ⟨hdur2.trans hdur, hlast2.trans hlast, ?_⟩
    rw [hno, noFaceAlertStep_char, hno2, hdur, hthr]
    simp [not_le.mpr hpos]
  · obtain ⟨-, -, -, -, -, -, hdur2, -, -, -, -, -⟩ :=
      blinkRateStep_preserve (postWindowState s now none earOpt) now
        (noFaceAlertStep (postWindowState s now none earOpt)
          (windowAlerts (postWindowState s now none earOpt) {}))
    rw [detect_posture_decomp]
    dsimp only
    exact hdur2.trans hnone_dur
  · obtain ⟨-, -, hthr, -, -, -, -, -⟩ := postWindowState_thresholds s now none earOpt
    obtain ⟨hno, -, -, -, -, -, -, -, -, -, -, -⟩ :=
      blinkRateStep_preserve (postWindowState s now none earOpt) now
        (noFaceAlertStep (postWindowState s now none earOpt)
          (windowAlerts (postWindowState s now none earOpt) {}))
    obtain ⟨hno2, -, -⟩ :=
      windowAlerts_preserve (postWindowState s now none earOpt) {}
    rw [detect_posture_decomp]
    dsimp only
    rw [hno, noFaceAlertStep_char, hno2, hnone_dur, hthr]
    simp

/-- C5 witness: with the default 30-second threshold, a no-detection frame
exactly 30 seconds after the last detection raises the alert, one second
earlier does not, and a detected frame clears the duration. -/
theorem presence_timer_policy_witness :
    (freshDetector.detect_posture 30 none none).alerts.no_face_alert = true ∧
    (freshDetector.detect_posture 29 none none).alerts.no_face_alert = false ∧
    (freshDetector.detect_posture 30 (some (1/10)) none).state.no_face_duration = 0 := by
  have h30 := presence_timer_policy freshDetector 30 none (by decide)
  have h29 := presence_timer_policy freshDetector 29 none (by decide)
  refine ⟨h30.2.2.mpr (by decide), ?_, (h30.1 (1/10)).1⟩
  exact Bool.eq_false_iff.mpr (fun hx => absurd (h29.2.2.mp hx) (by decide))

/-- C1: the code never performs time-based eviction on the behavior
window. After a frame labelled `'bad'` at `t = 0` and a second frame at
`t = 100` — 90 seconds past the claimed 10-second window — the `t = 0`
entry is still in `frame_history`/`frame_timestamps` when the fractions
are computed, and `bad_alert` fires from that stale entry
(`bad_fraction = 1/2 ≥ 0.5`); under the claimed eviction the window would
contain only the `'good'` entry and `bad_alert` would stay off. Only the
300-entry count cap ever bounds the window. -/
theorem stale_window_entry_drives_bad_alert :
    c1SecondFrame.state.frame_history = [PostureLabel.bad, PostureLabel.good] ∧
    c1SecondFrame.state.frame_timestamps = [0, 100] ∧
    (10 : ℚ) < 100 - 0 ∧
    c1SecondFrame.alerts.bad_alert = true := by decide

/-- C2 counterexample: with `distance_threshold = 0.18` and the smoothing
buffer full of the constant value `v = 0.18` (ten face frames of exactly
the threshold), the next frame classifies as `'warning'`, not `'bad'` as
the claim states for `v` exactly equal to the threshold — the comparison
`smoothed_size > distance_threshold` is strict. -/
theorem boundary_at_threshold_is_warning_not_bad :
    (constThresholdRun.detect_posture 0 (some (18/100)) none).posture_status =
      PostureLabel.warning ∧
    (constThresholdRun.detect_posture 0 (some (18/100)) none).posture_status ≠
      PostureLabel.bad := by decide

/-- C2 (amended): for a constant face-size input `v` on consecutive
face-detected frames with the smoothing buffer full (so the smoothed size
equals `v`), the classification matches the strict threshold table:
`v > T` is `'bad'`, `0.75·T < v ≤ T` is `'warning'`, `v ≤ 0.75·T` is
`'good'`; at the boundaries, `v` exactly equal to `T` yields `'warning'`
(not `'bad'`), and `v` exactly equal to `0.75·T` yields `'good'`
(not `'warning'`). -/
theorem classify_constant_input_strict_thresholds (s : PostureDetector)
    (now v : ℚ) (earOpt : Option ℚ)
    (hfull : s.face_size_history = List.replicate s.smoothing_frames v)
    (hm : 0 < s.smoothing_frames) (hT : 0 < s.distance_threshold) :
    ((s.detect_posture now (some v) earOpt).posture_status =
      if s.distance_threshold < v then PostureLabel.bad
      else if s.distance_threshold * (75/100) < v then PostureLabel.warning
      else PostureLabel.good) ∧
    (v = s.distance_threshold →
      (s.detect_posture now (some v) earOpt).posture_status = PostureLabel.warning) ∧
    (v = s.distance_threshold * (75/100) →
      (s.detect_posture now (some v) earOpt).posture_status = PostureLabel.good) := by
  obtain ⟨hd1, hs1, hh1, -, -, -, -, -, -, -, -, -, -, -, -⟩ :=
    detect_blinks_preserve s now earOpt
  rw [detect_posture_decomp]
  dsimp only [faceStep]
  have hmain : classifyStatus
      ((s.detect_blinks now earOpt).2).distance_threshold
      (PostureDetector.get_smoothed_face_size
        { (s.detect_blinks now earOpt).2 with
          last_face_time := now
          no_face_duration := 0
          face_size_history :=
            dequeAppend ((s.detect_blinks now earOpt).2).smoothing_frames
              ((s.detect_blinks now earOpt).2).face_size_history v }) =
      if s.distance_threshold < v then PostureLabel.bad
      else if s.distance_threshold * (75/100) < v then PostureLabel.warning
      else PostureLabel.good := by
    rw [smoothed_of_replicate _ s.smoothing_frames v hm
      (by
        show dequeAppend ((s.detect_blinks now earOpt).2).smoothing_frames
          ((s.detect_blinks now earOpt).2).face_size_history v = _
        rw [hs1, hh1, hfull]
        exact dequeAppend_replicate s.smoothing_frames v)]
    rw [classifyStatus, hd1]
  refine ⟨hmain, fun hv => ?_, fun hv => ?_⟩
  · rw [hmain, if_neg (by rw [hv]; exact lt_irrefl _),
      if_pos (by rw [hv]; nlinarith)]
  · rw [hmain, if_neg (by rw [hv]; nlinarith),
      if_neg (by rw [hv]; exact lt_irrefl _)]

/-- C2 witness: instantiated at the detector whose buffer was filled by
ten frames of constant value exactly `distance_threshold = 0.18`; the
boundary classifies as `'warning'`. -/
theorem classify_constant_input_strict_thresholds_witness :
    (constThresholdRun.detect_posture 0 (some (18/100)) none).posture_status =
      PostureLabel.warning :=
  (classify_constant_input_strict_thresholds constThresholdRun 0 (18/100) none
    (by decide) (by decide) (by decide)).2.1 (by decide)

/-- C6: starting from open eyes (consecutive-closed counter 0), a run of
`n` frames with EAR below `ear_threshold` followed by one reopening frame
leaves the counter reset to 0, increments the cumulative blink count by
one exactly when `n` reached `consec_frames` (4 by default — so a 3-frame
dip produces no blink and a run of at least 4 produces exactly one), and
records exactly one blink timestamp in that case and none otherwise. -/
theorem blink_debounce_run (s : PostureDetector) (now c o : ℚ) (n : Nat)
    (h0 : s.frame_counter = 0) (hc : c < s.ear_threshold)
    (ho : ¬ o < s.ear_threshold) :
    (feedEars s now (List.replicate n c ++ [o])).frame_counter = 0 ∧
    (feedEars s now (List.replicate n c ++ [o])).blink_count =
      s.blink_count + (if s.consec_frames ≤ n then 1 else 0) ∧
    (feedEars s now (List.replicate n c ++ [o])).blink_timestamps =
      s.blink_timestamps ++ (if s.consec_frames ≤ n then [now] else []) := by
  have hsplit : feedEars s now (List.replicate n c ++ [o]) =
      ((feedEars s now (List.replicate n c)).update_blink_count now o).2 := by
    unfold feedEars
    rw [List.foldl_append]
    rfl
  rw [hsplit, feedEars_closed_run now c n s hc, h0]
  rw [PostureDetector.update_blink_count]
  dsimp only
  rw [if_neg ho]
  simp only [Nat.zero_add]
  split_ifs with hn <;> simp

/-- C6 witness: with the default 4-frame debounce, three consecutive
closed frames then a reopening produce no blink, four produce exactly
one, and the counter ends at 0. -/
theorem blink_debounce_run_witness :
    (feedEars freshDetector 5 (List.replicate 3 (1/5) ++ [1/2])).blink_count = 0 ∧
    (feedEars freshDetector 5 (List.replicate 4 (1/5) ++ [1/2])).blink_count = 1 ∧
    (feedEars freshDetector 5 (List.replicate 4 (1/5) ++ [1/2])).frame_counter = 0 ∧
    (feedEars freshDetector 5 (List.replicate 3 (1/5) ++ [1/2])).blink_timestamps = [] ∧
    (feedEars freshDetector 5 (List.replicate 4 (1/5) ++ [1/2])).blink_timestamps = [5] := by
  have h3 := blink_debounce_run freshDetector 5 (1/5) (1/2) 3 rfl (by decide) (by decide)
  have h4 := blink_debounce_run freshDetector 5 (1/5) (1/2) 4 rfl (by decide) (by decide)
  refine ⟨?_, ?_, h4.1, ?_, ?_⟩
  · simpa using h3.2.1
  · simpa using h4.2.1
  · simpa using h3.2.2
  · simpa using h4.2.2

/-- C7: whenever the blink-rate check fires, with `r` the number of blink
timestamps surviving the front eviction of entries older than the trailing
60-second window (computed on the state after this frame's blink
detection), `serious_eye_strain` is raised iff `r` is below
`absolute_min_blinks_per_minute` (7), `low_blink_rate_alert` iff `r` is at
least that but below `min_blinks_per_minute` (11) — serious takes
priority, the two are never both raised — the internal triggered flag ends
up set iff `r` is below one of the two thresholds (so a rate at or above
11 clears it), and the check timestamp is updated. -/
theorem blink_rate_two_tier_thresholds (s : PostureDetector) (now : ℚ)
    (face earOpt : Option ℚ)
    (h : s.blink_rate_check_interval ≤ now - s.last_blink_rate_check) :
    ((s.detect_posture now face earOpt).alerts.serious_eye_strain = true ↔
      (((s.detect_blinks now earOpt).2).blink_timestamps.dropWhile
          (fun t => t < now - s.blink_rate_check_interval)).length <
        s.absolute_min_blinks_per_minute) ∧
    ((s.detect_posture now face earOpt).alerts.low_blink_rate_alert = true ↔
      s.absolute_min_blinks_per_minute ≤
          (((s.detect_blinks now earOpt).2).blink_timestamps.dropWhile
            (fun t => t < now - s.blink_rate_check_interval)).length ∧
        (((s.detect_blinks now earOpt).2).blink_timestamps.dropWhile
            (fun t => t < now - s.blink_rate_check_interval)).length <
          s.min_blinks_per_minute) ∧
    ((s.detect_posture now face earOpt).state.low_blink_rate_alert_triggered = true ↔
      ((((s.detect_blinks now earOpt).2).blink_timestamps.dropWhile
          (fun t => t < now - s.blink_rate_check_interval)).length <
        s.absolute_min_blinks_per_minute ∨
       (((s.detect_blinks now earOpt).2).blink_timestamps.dropWhile
          (fun t => t < now - s.blink_rate_check_interval)).length <
        s.min_blinks_per_minute)) ∧
    (s.detect_posture now face earOpt).state.last_blink_rate_check = now ∧
    ¬((s.detect_posture now face earOpt).alerts.serious_eye_strain = true ∧
      (s.detect_posture now face earOpt).alerts.low_blink_rate_alert = true) := by
  obtain ⟨-, -, -, -, -, hi, habs, hmin⟩ := postWindowState_thresholds s now face earOpt
  obtain ⟨hbt, -, -, hl, -⟩ := postWindowState_blink_fields s now face earOpt
  have hfire : (postWindowState s now face earOpt).blink_rate_check_interval ≤
      now - (postWindowState s now face earOpt).last_blink_rate_check := by
    rw [hi, hl]; exact h
  obtain ⟨hser, hlow, htrig, hstamp⟩ :=
    blinkRateStep_fired (postWindowState s now face earOpt) now
      (noFaceAlertStep (postWindowState s now face earOpt)
        (windowAlerts (postWindowState s now face earOpt) {})) hfire
  obtain ⟨-, hlow1, hser1⟩ :=
    windowAlerts_preserve (postWindowState s now face earOpt) {}
  obtain ⟨-, -, hlow2, hser2⟩ :=
    noFaceAlertStep_preserve (postWindowState s now face earOpt)
      (windowAlerts (postWindowState s now face earOpt) {})
  rw [detect_posture_decomp]
  dsimp only
  rw [hser, hlow, htrig, hser2, hser1, hlow2, hlow1, hbt, hi, habs, hmin]
  refine ⟨by simp, by simp [not_lt], by simp, hstamp, ?_⟩
  rintro ⟨h1, h2⟩
  simp only [Bool.false_or, decide_eq_true_eq] at h1
  simp only [Bool.false_or, Bool.and_eq_true, Bool.not_eq_true',
    decide_eq_true_eq] at h2
  exact absurd h1 (of_decide_eq_false h2.1)

/-- C7 witness: five blinks recorded inside the window and a check at
`t = 60` yield `serious_eye_strain` (5 < 7) and not `low_blink_rate_alert`,
with the check timestamp advanced. -/
theorem blink_rate_two_tier_thresholds_witness :
    (fiveBlinkDetector.detect_posture 60 none none).alerts.serious_eye_strain = true ∧
    (fiveBlinkDetector.detect_posture 60 none none).alerts.low_blink_rate_alert = false ∧
    (fiveBlinkDetector.detect_posture 60 none none).state.last_blink_rate_check = 60 := by
  have hc := blink_rate_two_tier_thresholds fiveBlinkDetector 60 none none (by decide)
  refine ⟨hc.1.mpr (by decide), ?_, hc.2.2.2.1⟩
  exact Bool.eq_false_iff.mpr (fun hx => absurd (hc.2.1.mp hx).1 (by decide))

/-- C8: a frame with no facial landmarks performs no blink update at all —
`detect_blinks` returns `False` with the state unchanged (counter, blink
count and recorded timestamps included), and the whole-frame pipeline
leaves the consecutive-closed counter and cumulative blink count exactly
as they were: the frame counts neither as eye-closed nor as eye-open. -/
theorem no_landmarks_is_no_blink_update (s : PostureDetector) (now : ℚ)
    (face : Option ℚ) :
    s.detect_blinks now none = (false, s) ∧
    (s.detect_posture now face none).state.frame_counter = s.frame_counter ∧
    (s.detect_posture now face none).state.blink_count = s.blink_count := by
  obtain ⟨-, hbc, hfc, -, -⟩ := postWindowState_blink_fields s now face none
  obtain ⟨-, -, -, -, -, -, -, -, -, -, hbc2, hfc2⟩ :=
    blinkRateStep_preserve (postWindowState s now face none) now
      (noFaceAlertStep (postWindowState s now face none)
        (windowAlerts (postWindowState s now face none) {}))
  refine ⟨rfl, ?_, ?_⟩
  · rw [detect_posture_decomp]
    exact hfc2.trans hfc
  · rw [detect_posture_decomp]
    exact hbc2.trans hbc

/-- C9: after any sequence of processed frames, `reset()` (modelled from
the spec, since no such method exists in the sources) yields exactly the
state of a freshly constructed engine with the identical configuration
(`distance_threshold`, `smoothing_frames`): every window, timer and
counter field is re-initialized while the configured thresholds are
preserved, so every subsequent status query agrees with the fresh
engine's. -/
theorem reset_equals_fresh_construction (dt : ℚ) (sf : Nat) (t0 : ℚ)
    (frames : List FrameInput) (t : ℚ) :
    (runFrames (PostureDetector.init dt sf t0) frames).reset t =
      PostureDetector.init dt sf t := by
  obtain ⟨h1, h2⟩ := runFrames_config frames (PostureDetector.init dt sf t0)
  unfold PostureDetector.reset
  rw [h1, h2]
  rfl

/-- C10 counterexample: the initial status payload of `app.py` — the one
served before any frame has been processed — does not contain the
`serious_eye_strain` alert field at all, refuting the claim that every
published payload carries all five alert fields. -/
theorem initial_payload_missing_serious_eye_strain :
    (app_initial_alerts.map Prod.fst).contains "serious_eye_strain" = false := by
  decide

/-- C10 (amended): every status payload published for a processed frame
carries all five alert fields (present unconditionally, initialized
`false` at the top of `detect_posture`), but the initial payload available
before any frame has been processed carries only four fields — every one
defaulted `false`, with `serious_eye_strain` absent until the first frame
is processed. -/
theorem alert_payload_fields (s : PostureDetector) (now : ℚ)
    (face earOpt : Option ℚ) :
    (alertsPayload (s.detect_posture now face earOpt).alerts).map Prod.fst =
      ["no_face_alert", "warning_alert", "bad_alert", "low_blink_rate_alert",
       "serious_eye_strain"] ∧
    app_initial_alerts.map Prod.fst =
      ["bad_alert", "warning_alert", "no_face_alert", "low_blink_rate_alert"] ∧
    (∀ p ∈ app_initial_alerts, p.2 = false) := by
  exact ⟨rfl, rfl, by decide⟩
